import Mathlib

/-!
Verification of the MOPS telemetry pipeline: the ingestion gateway
(`services/iot-controller/app.py`) and the rule engine
(`services/rule-engine/worker.py`), shallowly embedded in Lean.

JSON payloads are modelled by `JVal`; Python `dict`s become association
lists (`Obj`), where writing a key replaces the first occurrence in place
or appends at the end, matching insertion-ordered Python dicts.  Python
floats are modelled exactly as rationals, and the dynamic coercions
`str`/`float`/`int` used by the gateway become the partial functions
`pyStr`/`pyFloat`/`pyInt`.
-/

namespace MOPS

/-- A JSON-shaped dynamic value, as produced by `json.loads` / held in a
Python dict.  Python floats are modelled as exact rationals (`jnum`);
integers keep their own constructor since Python distinguishes
`int` from `float`. -/
inductive JVal where
  | jnull  : JVal
  | jbool  : Bool → JVal
  | jint   : Int → JVal
  | jnum   : ℚ → JVal
  | jstr   : String → JVal
  | jarr   : List JVal → JVal
  | jobj   : List (String × JVal) → JVal

/-- A Python dict with string keys, in insertion order. -/
abbrev Obj := List (String × JVal)

/-- First value bound to `k`, like `d[k]` / `d.get(k)` on a dict. -/
def lookupKey (o : Obj) (k : String) : Option JVal :=
  (o.find? (fun kv => kv.1 = k)).map (·.2)

/-- Membership test `k in d`. -/
def hasKey (o : Obj) (k : String) : Bool :=
  (lookupKey o k).isSome

/-- Assignment `d[k] = v`: replace the first binding of `k` in place, else append. -/
def setKey (o : Obj) (k : String) (v : JVal) : Obj :=
  match o with
  | [] => [(k, v)]
  | (k', v') :: rest =>
      if k' = k then (k', v) :: rest else (k', v') :: setKey rest k v

/-- Python `d.setdefault(k, v)`. -/
def setDefault (o : Obj) (k : String) (v : JVal) : Obj :=
  if hasKey o k then o else o ++ [(k, v)]

/-- Value of a run of decimal digits. -/
def digitsVal (cs : List Char) : Nat :=
  cs.foldl (fun n c => n * 10 + (c.toNat - '0'.toNat)) 0

/-- Split a leading run of decimal digits. -/
def spanDigits (cs : List Char) : List Char × List Char :=
  (cs.takeWhile Char.isDigit, cs.dropWhile Char.isDigit)

/-- Optional leading sign; returns (negative?, rest). -/
def parseSign : List Char → Bool × List Char
  | '+' :: rest => (false, rest)
  | '-' :: rest => (true, rest)
  | cs => (false, cs)

/-- Python `int(s)` on a string: optional surrounding whitespace, optional
sign, a nonempty run of digits.  (Underscore separators and non-ASCII
digits, which CPython also accepts, are not modelled; no payload in this
system uses them.) -/
def parseIntStr (s : String) : Option Int :=
  let cs := (s.toList.dropWhile (· = ' ')).reverse.dropWhile (· = ' ') |>.reverse
  let (neg, cs) := parseSign cs
  let (ds, rest) := spanDigits cs
  if ds ≠ [] ∧ rest = [] then
    some (if neg then -(digitsVal ds : Int) else (digitsVal ds : Int))
  else none

/-- Exponent suffix of a float literal: empty, or `e`/`E`, optional sign,
nonempty digits; multiplies the mantissa by the power of ten. -/
def parseExpSuffix (m : ℚ) : List Char → Option ℚ
  | [] => some m
  | e :: rest =>
      if e = 'e' ∨ e = 'E' then
        let (neg, cs) := parseSign rest
        let (ds, rest') := spanDigits cs
        if ds ≠ [] ∧ rest' = [] then
          some (m * (10 : ℚ) ^ (if neg then -(digitsVal ds : Int) else (digitsVal ds : Int)))
        else none
      else none

/-- Python `float(s)` on a string: optional surrounding whitespace,
optional sign, decimal mantissa (`d`, `d.`, `d.d` or `.d`), optional
exponent.  (`inf`/`nan` and underscore separators are not modelled;
they have no finite rational value / no use in this system.) -/
def parseFloatStr (s : String) : Option ℚ :=
  let cs := (s.toList.dropWhile (· = ' ')).reverse.dropWhile (· = ' ') |>.reverse
  let (neg, cs) := parseSign cs
  let (ip, rest) := spanDigits cs
  let mant? : Option ℚ :=
    match rest with
    | '.' :: rest2 =>
        let (fp, rest3) := spanDigits rest2
        if ip = [] ∧ fp = [] then none
        else
          let m : ℚ := (digitsVal ip : ℚ) + (digitsVal fp : ℚ) / (10 : ℚ) ^ fp.length
          parseExpSuffix m rest3
    | _ =>
        if ip = [] then none else parseExpSuffix (digitsVal ip : ℚ) rest
  mant?.map (fun m => if neg then -m else m)

/-- Python `str(x)`.  Never fails.  Only the string case (`str` of a
`str` is the identity) is semantically relied on by the pipeline; the
renderings of the other cases stand in for CPython's `repr`-based
formatting, whose exact text no property here depends on. -/
def pyStr : JVal → String
  | .jnull => "None"
  | .jbool b => if b then "True" else "False"
  | .jint n => toString n
  | .jnum q => toString q
  | .jstr s => s
  | .jarr _ => "[...]"
  | .jobj _ => "{...}"

/-- Python `float(x)`: floats and ints pass through, bools map to 0/1,
numeric strings parse, everything else raises. -/
def pyFloat : JVal → Option ℚ
  | .jnum q => some q
  | .jint n => some (n : ℚ)
  | .jbool b => some (if b then 1 else 0)
  | .jstr s => parseFloatStr s
  | _ => none

/-- Truncation of a rational toward zero, as Python `int(float)` does. -/
def truncQ (q : ℚ) : Int :=
  if 0 ≤ q then ⌊q⌋ else ⌈q⌉

/-- Python `int(x)`: ints pass through, bools map to 0/1, floats truncate
toward zero, integer-literal strings parse, everything else raises. -/
def pyInt : JVal → Option Int
  | .jint n => some n
  | .jbool b => some (if b then 1 else 0)
  | .jnum q => some (truncQ q)
  | .jstr s => parseIntStr s
  | _ => none

/-! ## Ingestion gateway (`services/iot-controller/app.py`) -/

/-- A device document in the Mongo `devices` collection; `owner_id` /
`owner_email` are read with `dev.get(...)`, hence optional. -/
structure Device where
  id : String
  external_id : Option String
  owner_id : Option String
  owner_email : Option String

/-- The annotation dict built by `resolve_device_owner`. -/
structure OwnerInfo where
  owner_id : Option String
  owner_email : Option String
  device_ref : Option String

/-- Model of `resolve_device_owner` (app.py:186): look the device up by `_id`,
then by `external_id`; fall back to the default user; never fails. -/
def resolve_device_owner (devices : List Device)
    (default_user : Option (String × String)) (device_id : String) : OwnerInfo :=
  match devices.find? (fun d => d.id = device_id) <|>
        devices.find? (fun d => d.external_id = some device_id) with
  | some dev => ⟨dev.owner_id, dev.owner_email, some dev.id⟩
  | none =>
      match default_user with
      | some (uid, uemail) => ⟨some uid, some uemail, none⟩
      | none => ⟨none, none, none⟩

def requiredFields : List String :=
  ["device_id", "ts", "field_a", "field_b", "battery", "seq"]

/-- Read `d[k]` where the key is known present (reads of required fields after
the presence check); `jnull` is never actually reached there. -/
def getKey (o : Obj) (k : String) : JVal :=
  (lookupKey o k).getD .jnull

/-- Model of `validate_payload` (app.py:173): require the six fields, coerce them
in place with `str`/`str`/`float`/`float`/`int`/`int`, default `meta` to
an empty dict; any failure raises.  Other keys are left untouched. -/
def validate_payload (p : Obj) : Option Obj :=
  if requiredFields.all (fun k => hasKey p k) then
    match pyFloat (getKey p "field_a"), pyFloat (getKey p "field_b"),
          pyInt (getKey p "battery"), pyInt (getKey p "seq") with
    | some fa, some fb, some ba, some sq =>
        let p1 := setKey p "device_id" (.jstr (pyStr (getKey p "device_id")))
        let p2 := setKey p1 "ts" (.jstr (pyStr (getKey p "ts")))
        let p3 := setKey p2 "field_a" (.jnum fa)
        let p4 := setKey p3 "field_b" (.jnum fb)
        let p5 := setKey p4 "battery" (.jint ba)
        let p6 := setKey p5 "seq" (.jint sq)
        some (setDefault p6 "meta" (.jobj []))
    | _, _, _, _ => none
  else none

/-- The string content of a validated `device_id` (always a `jstr`). -/
def strOf : JVal → String
  | .jstr s => s
  | _ => ""

def optStr : Option String → JVal
  | some s => .jstr s
  | none => .jnull

/-- Merge the ownership annotations, as `validated.update(owner_info)`. -/
def annotate (v : Obj) (oi : OwnerInfo) : Obj :=
  setKey (setKey (setKey v "owner_id" (optStr oi.owner_id))
      "owner_email" (optStr oi.owner_email))
    "device_ref" (optStr oi.device_ref)

/-- An externally observable side effect of one `ingest` call, in order. -/
inductive Effect where
  | storeInsert (doc : Obj) (ok : Bool)
  | busPublish (routingKey : String) (body : Obj) (ok : Bool)

/-- Outcome of one `/ingest` request: HTTP status, the ordered side
effects on the Event Store and Event Bus, and the failure counters
incremented during the call. -/
structure IngestResult where
  status : Nat
  trace : List Effect
  reqFail : Nat
  validationFail : Nat
  mongoFail : Nat
  rabbitFail : Nat

/-- The document `ingest` hands to `insert_one`: the validated event
annotated with ownership, plus the `_id` the store assigns into the dict
(modelled by the opaque `jstr "oid"` when the payload had none). -/
def ingestDoc (devices : List Device) (default_user : Option (String × String))
    (v : Obj) : Obj :=
  let doc := annotate v (resolve_device_owner devices default_user
    (strOf (getKey v "device_id")))
  if hasKey doc "_id" then doc else doc ++ [("_id", .jstr "oid")]

/-- The message body `ingest` publishes: the persisted doc minus `_id`. -/
def publishedBody (doc : Obj) : Obj :=
  doc.filter (fun kv => kv.1 ≠ "_id")

/-- Model of `ingest` (app.py:237).  `payload = none` models a request body that
is not valid JSON; `storeOk` / `busOk` model whether the Mongo insert and
the Rabbit publish succeed. -/
def ingest (devices : List Device) (default_user : Option (String × String))
    (storeOk busOk : Bool) (payload : Option Obj) : IngestResult :=
  match payload with
  | none => ⟨400, [], 1, 0, 0, 0⟩
  | some p =>
    match validate_payload p with
    | none => ⟨400, [], 1, 1, 0, 0⟩
    | some v =>
      let doc := ingestDoc devices default_user v
      if storeOk then
        let routingKey := "device." ++ strOf (getKey v "device_id")
        let body := publishedBody doc
        if busOk then
          ⟨200, [.storeInsert doc true, .busPublish routingKey body true], 0, 0, 0, 0⟩
        else
          ⟨500, [.storeInsert doc true, .busPublish routingKey body false], 1, 0, 0, 1⟩
      else
        ⟨500, [.storeInsert doc false], 1, 0, 1, 0⟩

/-! ## Rule engine (`services/rule-engine/worker.py`) -/

def rule_instant_device : String := "42"

def rule_instant_threshold : ℚ := 5

def rule_persistent_count : Nat := 10

/-- One row written to the `alerts` table by `insert_alert`. -/
structure Alert where
  device_id : String
  rule_id : String
  rule_type : String
  payload : Obj
  count : Nat
  severity : Nat

/-- The in-memory per-device counter dict `state: Dict[str, int]`. -/
abbrev RState := List (String × Nat)

def getState (s : RState) (d : String) : Nat :=
  ((s.find? (fun kv => kv.1 = d)).map (·.2)).getD 0

def setState (s : RState) (d : String) (n : Nat) : RState :=
  match s with
  | [] => [(d, n)]
  | (d', n') :: rest =>
      if d' = d then (d', n) :: rest else (d', n') :: setState rest d n

/-- Python `str(payload.get("device_id"))` (worker.py:51). -/
def deviceOf (p : Obj) : String :=
  pyStr ((lookupKey p "device_id").getD .jnull)

/-- Python `float(payload.get("field_a", 0))` (worker.py:52). -/
def fieldA? (p : Obj) : Option ℚ :=
  pyFloat ((lookupKey p "field_a").getD (.jint 0))

/-- The instant predicate of worker.py:55 and worker.py:60. -/
def isViolation (p : Obj) : Bool :=
  (deviceOf p = rule_instant_device : Bool) &&
    match fieldA? p with
    | some q => decide (rule_instant_threshold < q)
    | none => false

/-- The persistent rule (worker.py:65–77), shared continuation of both
branches of the instant rule: if the (already updated) counter has
reached the streak length, write a `persistent` alert carrying the
counter value and reset the counter to 0. -/
def persistentStep (dbOk : Bool) (payload : Obj) (device_id : String)
    (instAlerts : List Alert) (s1 : RState) : Except Unit (RState × List Alert) :=
  if rule_persistent_count ≤ getState s1 device_id then
    if dbOk then
      Except.ok (setState s1 device_id 0,
        instAlerts ++
          [⟨device_id, "persistent_42_a_gt_5", "persistent", payload,
            getState s1 device_id, 2⟩])
    else Except.error ()
  else
    Except.ok (s1, instAlerts)

/-- Model of `handle_message` (worker.py:49).  `body = none` models a message body
that is not a JSON object (so `json.loads` or the `.get` calls raise);
`dbOk` models whether `insert_alert` calls succeed during this message —
a failing insert raises out of `handle_message`, skipping everything
after it.  Returns the new state dict and the alert rows written, or
`error` if an exception escaped. -/
def handle_message (dbOk : Bool) (body : Option Obj) (s : RState) :
    Except Unit (RState × List Alert) :=
  match body with
  | none => Except.error ()
  | some payload =>
    let device_id := deviceOf payload
    match fieldA? payload with
    | none => Except.error ()
    | some field_a =>
      if device_id = rule_instant_device ∧ rule_instant_threshold < field_a then
        if dbOk then
          persistentStep dbOk payload device_id
            [⟨device_id, "instant_42_a_gt_5", "instant", payload, 1, 1⟩]
            (setState s device_id (getState s device_id + 1))
        else Except.error ()
      else
        persistentStep dbOk payload device_id []
          (setState s device_id 0)

/-- Result of the consumer `callback` (worker.py:107): the state dict
after the message, the alert rows written, the value of the
`rule_errors` counter, and whether the message was acknowledged. -/
structure CallbackResult where
  state : RState
  alerts : List Alert
  errors : Nat
  acked : Bool

/-- Model of `callback` (worker.py:107): run `handle_message`; any exception is
caught and counted in `rule_errors`; the message is acknowledged in the
`finally` block either way. -/
def callback (dbOk : Bool) (body : Option Obj) (s : RState) (errors : Nat) :
    CallbackResult :=
  match handle_message dbOk body s with
  | .ok (s', alerts) => ⟨s', alerts, errors, true⟩
  | .error _ => ⟨s, [], errors + 1, true⟩

/-- The consumption loop over a finite list of delivered bodies, all
alert inserts succeeding: threads the state dict through `callback` and
collects the alert rows in delivery order. -/
def runMessages : List Obj → RState → RState × List Alert
  | [], s => (s, [])
  | b :: rest, s =>
      let r := callback true (some b) s 0
      let (s', alerts) := runMessages rest r.state
      (s', r.alerts ++ alerts)

/-- The `persistent`-type rows among a list of written alerts. -/
def persistentAlerts (alerts : List Alert) : List Alert :=
  alerts.filter (fun a => a.rule_type = "persistent")

/-- The `instant`-type rows among a list of written alerts. -/
def instantAlerts (alerts : List Alert) : List Alert :=
  alerts.filter (fun a => a.rule_type = "instant")

/-- Documents successfully inserted into the Event Store during a call. -/
def persistedDocs (r : IngestResult) : List Obj :=
  r.trace.filterMap (fun e =>
    match e with
    | .storeInsert d true => some d
    | _ => none)

/-- A payload with a required field absent, or with `field_a`/`field_b`
not coercible to float, or `battery`/`seq` not coercible to int (the
`str` coercions of `device_id`/`ts` never fail). -/
def missingOrUncoercible (p : Obj) : Bool :=
  !(requiredFields.all (fun k => hasKey p k)) ||
    (pyFloat (getKey p "field_a")).isNone ||
    (pyFloat (getKey p "field_b")).isNone ||
    (pyInt (getKey p "battery")).isNone ||
    (pyInt (getKey p "seq")).isNone

/-- A bus message the engine cannot decode into a TelemetryEvent-shaped
record: not a JSON object at all, or its `field_a` value (defaulted to
`0`) fails the `float(...)` coercion. -/
def decodeFails (body : Option Obj) : Bool :=
  match body with
  | none => true
  | some p => (fieldA? p).isNone

/-! ## Lemmas about the dict operations -/

theorem lookupKey_nil (k : String) : lookupKey ([] : Obj) k = none := rfl

theorem lookupKey_cons (k k' : String) (v : JVal) (o : Obj) :
    lookupKey ((k', v) :: o) k = if k' = k then some v else lookupKey o k := by
  by_cases h : k' = k <;> simp [lookupKey, List.find?, h]

theorem lookupKey_setKey_self (o : Obj) (k : String) (v : JVal) :
    lookupKey (setKey o k v) k = some v := by
  induction o with
  | nil => simp [setKey, lookupKey_cons]
  | cons kv rest ih =>
      obtain ⟨k', v'⟩ := kv
      by_cases h : k' = k <;> simp [setKey, h, lookupKey_cons, ih]

theorem lookupKey_setKey_ne (o : Obj) (k k' : String) (v : JVal) (h : k ≠ k') :
    lookupKey (setKey o k' v) k = lookupKey o k := by
  have h' : ¬(k' = k) := Ne.symm h
  induction o with
  | nil => simp [setKey, lookupKey_cons, h']
  | cons kv rest ih =>
      obtain ⟨k₀, v₀⟩ := kv
      by_cases h0 : k₀ = k'
      · subst h0
        simp [setKey, lookupKey_cons, h']
      · simp [setKey, h0, lookupKey_cons, ih]

theorem lookupKey_append_one_ne (o : Obj) (k k' : String) (v : JVal) (h : k ≠ k') :
    lookupKey (o ++ [(k', v)]) k = lookupKey o k := by
  have h' : ¬(k' = k) := Ne.symm h
  induction o with
  | nil => simp [lookupKey_cons, lookupKey_nil, h']
  | cons kv rest ih =>
      obtain ⟨k₀, v₀⟩ := kv
      by_cases h0 : k₀ = k <;> simp [List.cons_append, lookupKey_cons, h0, ih]

theorem lookupKey_append_one_self (o : Obj) (k : String) (v : JVal)
    (h : lookupKey o k = none) : lookupKey (o ++ [(k, v)]) k = some v := by
  induction o with
  | nil => simp [lookupKey_cons]
  | cons kv rest ih =>
      obtain ⟨k₀, v₀⟩ := kv
      rw [lookupKey_cons] at h
      by_cases h0 : k₀ = k
      · simp [h0] at h
      · simp [h0] at h
        simp [List.cons_append, lookupKey_cons, h0, ih h]

theorem setKey_lookup_eq (o : Obj) (k : String) (v : JVal)
    (h : lookupKey o k = some v) : setKey o k v = o := by
  induction o with
  | nil => simp [lookupKey_nil] at h
  | cons kv rest ih =>
      obtain ⟨k₀, v₀⟩ := kv
      rw [lookupKey_cons] at h
      by_cases h0 : k₀ = k
      · simp [h0] at h
        simp [setKey, h0, h]
      · simp [h0] at h
        simp [setKey, h0, ih h]

theorem hasKey_setKey (o : Obj) (k k' : String) (v : JVal) :
    hasKey (setKey o k' v) k = (hasKey o k || k = k') := by
  by_cases h : k = k'
  · subst h
    simp [hasKey, lookupKey_setKey_self]
  · simp [hasKey, lookupKey_setKey_ne o k k' v h, h]

theorem hasKey_setDefault (o : Obj) (k k' : String) (v : JVal) :
    hasKey (setDefault o k' v) k = (hasKey o k || k = k') := by
  unfold setDefault
  by_cases hk : hasKey o k'
  · by_cases h : k = k'
    · subst h
      simp [hk]
    · simp [hk, h]
  · by_cases h : k = k'
    · subst h
      have hnone : lookupKey o k = none := by
        simpa [hasKey] using hk
      simp [hasKey, hnone, lookupKey_append_one_self o k v hnone]
    · have hnone : lookupKey o k' = none := by
        simpa [hasKey] using hk
      simp [hasKey, hnone, lookupKey_append_one_ne o k k' v h, h]

theorem lookupKey_setDefault_ne (o : Obj) (k k' : String) (v : JVal) (h : k ≠ k') :
    lookupKey (setDefault o k' v) k = lookupKey o k := by
  unfold setDefault
  by_cases hk : hasKey o k'
  · simp [hk]
  · simp [hk, lookupKey_append_one_ne o k k' v h]

theorem setDefault_of_hasKey (o : Obj) (k : String) (v : JVal) (h : hasKey o k = true) :
    setDefault o k v = o := by
  simp [setDefault, h]

/-! ## Lemmas about the rule-engine state dict -/

theorem getState_nil (d : String) : getState ([] : RState) d = 0 := rfl

theorem getState_cons (d d' : String) (n : Nat) (s : RState) :
    getState ((d', n) :: s) d = if d' = d then n else getState s d := by
  by_cases h : d' = d <;> simp [getState, List.find?, h]

theorem getState_setState_self (s : RState) (d : String) (n : Nat) :
    getState (setState s d n) d = n := by
  induction s with
  | nil => simp [setState, getState_cons]
  | cons kv rest ih =>
      obtain ⟨d₀, n₀⟩ := kv
      by_cases h : d₀ = d <;> simp [setState, h, getState_cons, ih]

theorem setState_setState (s : RState) (d : String) (n m : Nat) :
    setState (setState s d n) d m = setState s d m := by
  induction s with
  | nil => simp [setState]
  | cons kv rest ih =>
      obtain ⟨d₀, n₀⟩ := kv
      by_cases h : d₀ = d <;> simp [setState, h, ih]

/-! ## Gateway claims -/

theorem validate_none_of_missingOrUncoercible (p : Obj)
    (h : missingOrUncoercible p = true) : validate_payload p = none := by
  unfold validate_payload
  unfold missingOrUncoercible at h
  by_cases hr : requiredFields.all (fun k => hasKey p k)
  · cases hfa : pyFloat (getKey p "field_a") <;>
      cases hfb : pyFloat (getKey p "field_b") <;>
        cases hba : pyInt (getKey p "battery") <;>
          cases hsq : pyInt (getKey p "seq") <;>
            simp [hr, hfa, hfb, hba, hsq] at h ⊢
  · simp [hr]

/-- Every `ingest` call's side-effect trace has one of three shapes:
empty (validation failure), a single failed insert, or a successful
insert followed by one publish attempt. -/
theorem ingest_trace_cases (devices : List Device)
    (default_user : Option (String × String)) (storeOk busOk : Bool)
    (payload : Option Obj) :
    (ingest devices default_user storeOk busOk payload).trace = [] ∨
    (∃ doc, storeOk = false ∧
      (ingest devices default_user storeOk busOk payload).trace =
        [Effect.storeInsert doc false]) ∨
    (∃ doc rk body ok, storeOk = true ∧
      (ingest devices default_user storeOk busOk payload).trace =
        [Effect.storeInsert doc true, Effect.busPublish rk body ok]) := by
  cases payload with
  | none => left; rfl
  | some p =>
    cases hv : validate_payload p with
    | none =>
        left
        simp only [ingest]
        rw [hv]
    | some v =>
      cases storeOk with
      | false =>
          right; left
          refine ⟨ingestDoc devices default_user v, rfl, ?_⟩
          simp only [ingest]
          rw [hv]
          rfl
      | true =>
          right; right
          cases busOk with
          | false =>
              refine ⟨ingestDoc devices default_user v,
                "device." ++ strOf (getKey v "device_id"),
                publishedBody (ingestDoc devices default_user v), false, rfl, ?_⟩
              simp only [ingest]
              rw [hv]
              rfl
          | true =>
              refine ⟨ingestDoc devices default_user v,
                "device." ++ strOf (getKey v "device_id"),
                publishedBody (ingestDoc devices default_user v), true, rfl, ?_⟩
              simp only [ingest]
              rw [hv]
              rfl

/-- C1: in every `ingest` call, any Event Bus publish attempt is
immediately preceded by a successful Event Store insert — the trace has
exactly the insert-then-publish shape — and if the store insert fails no
publish attempt is made at all. -/
theorem C1_persist_precedes_publish (devices : List Device)
    (default_user : Option (String × String)) (storeOk busOk : Bool)
    (payload : Option Obj) :
    (∀ rk body ok,
        Effect.busPublish rk body ok ∈
            (ingest devices default_user storeOk busOk payload).trace →
        ∃ doc, (ingest devices default_user storeOk busOk payload).trace =
          [Effect.storeInsert doc true, Effect.busPublish rk body ok]) ∧
    (storeOk = false →
      ∀ rk body ok,
        Effect.busPublish rk body ok ∉
          (ingest devices default_user storeOk busOk payload).trace) := by
  obtain h | ⟨doc, hs, h⟩ | ⟨doc, rk0, body0, ok0, hs, h⟩ :=
    ingest_trace_cases devices default_user storeOk busOk payload
  · constructor
    · intro rk body ok hmem
      rw [h] at hmem
      simp at hmem
    · intro _ rk body ok hmem
      rw [h] at hmem
      simp at hmem
  · constructor
    · intro rk body ok hmem
      rw [h] at hmem
      simp at hmem
    · intro _ rk body ok hmem
      rw [h] at hmem
      simp at hmem
  · constructor
    · intro rk body ok hmem
      rw [h] at hmem
      simp at hmem
      obtain ⟨h1, h2, h3⟩ := hmem
      subst h1; subst h2; subst h3
      exact ⟨doc, h⟩
    · intro hfalse
      rw [hs] at hfalse
      exact absurd hfalse (by simp)

/-- C2: a payload missing a required field, or with one not coercible to
its declared type, yields a ValidationError (HTTP 400, validation-failure
counter bumped) and an empty side-effect trace: the Event Store and the
Event Bus are untouched. -/
theorem C2_validation_error_no_side_effects (p : Obj)
    (h : missingOrUncoercible p = true) (devices : List Device)
    (default_user : Option (String × String)) (storeOk busOk : Bool) :
    ingest devices default_user storeOk busOk (some p) = ⟨400, [], 1, 1, 0, 0⟩ := by
  have hv := validate_none_of_missingOrUncoercible p h
  unfold ingest
  simp [hv]

/-- The ingestion payload of scenario C: `battery` is missing. -/
def scenarioCPayload : Obj :=
  [("device_id", .jstr "42"), ("ts", .jstr "2024-01-01T00:00:00Z"),
   ("field_a", .jnum 1), ("field_b", .jnum 2), ("seq", .jint 1)]

theorem C2_witness :
    missingOrUncoercible scenarioCPayload = true ∧
    ingest [] (some ("u", "u@example.com")) true true (some scenarioCPayload) =
      ⟨400, [], 1, 1, 0, 0⟩ :=
  ⟨rfl, C2_validation_error_no_side_effects scenarioCPayload rfl [] _ true true⟩

/-- A fully valid ingestion payload for device `"42"`. -/
def goodPayload : Obj :=
  [("device_id", .jstr "42"), ("ts", .jstr "t0"), ("field_a", .jnum 6),
   ("field_b", .jnum 1), ("battery", .jint 50), ("seq", .jint 1)]

/-- The document the gateway persists for `goodPayload` when the device
is unknown and the default owner is `("u", "u@example.com")`. -/
def goodDoc : Obj :=
  [("device_id", .jstr "42"), ("ts", .jstr "t0"), ("field_a", .jnum 6),
   ("field_b", .jnum 1), ("battery", .jint 50), ("seq", .jint 1),
   ("meta", .jobj []), ("owner_id", .jstr "u"),
   ("owner_email", .jstr "u@example.com"), ("device_ref", .jnull),
   ("_id", .jstr "oid")]

theorem C1_witness :
    ∃ doc,
      (ingest [] (some ("u", "u@example.com")) true true (some goodPayload)).trace =
        [Effect.storeInsert doc true,
         Effect.busPublish "device.42"
           (goodDoc.filter (fun kv => kv.1 ≠ "_id")) true] :=
  (C1_persist_precedes_publish [] (some ("u", "u@example.com")) true true
      (some goodPayload)).1
    "device.42" (goodDoc.filter (fun kv => kv.1 ≠ "_id")) true
    (by
      rw [show (ingest [] (some ("u", "u@example.com")) true true
            (some goodPayload)).trace =
          [Effect.storeInsert goodDoc true,
           Effect.busPublish "device.42"
             (goodDoc.filter (fun kv => kv.1 ≠ "_id")) true] from rfl]
      exact List.mem_cons_of_mem _ (List.mem_singleton.mpr rfl))

/-- Successful validation characterized: all six required fields were
present, the four numeric coercions succeeded, and the result is the
input with the six fields replaced in place by their coerced values and
`meta` defaulted. -/
theorem validate_payload_some (p v : Obj) (h : validate_payload p = some v) :
    ∃ fa fb ba sq,
      requiredFields.all (fun k => hasKey p k) = true ∧
      pyFloat (getKey p "field_a") = some fa ∧
      pyFloat (getKey p "field_b") = some fb ∧
      pyInt (getKey p "battery") = some ba ∧
      pyInt (getKey p "seq") = some sq ∧
      v = setDefault (setKey (setKey (setKey (setKey (setKey (setKey p
              "device_id" (.jstr (pyStr (getKey p "device_id"))))
              "ts" (.jstr (pyStr (getKey p "ts"))))
              "field_a" (.jnum fa))
              "field_b" (.jnum fb))
              "battery" (.jint ba))
              "seq" (.jint sq))
            "meta" (.jobj []) := by
  rw [validate_payload] at h
  split at h
  · rename_i hr
    split at h
    · rename_i fa fb ba sq hfa hfb hba hsq
      injection h with h'
      exact ⟨fa, fb, ba, sq, hr, hfa, hfb, hba, hsq, h'.symm⟩
    · exact Option.noConfusion h
  · exact Option.noConfusion h

/-- C7 (amended): validation preserves fields outside the schema instead
of dropping them — the validated event's keys are exactly the original
payload's keys plus `meta` (defaulted when absent), and every key other
than the six required fields and `meta` keeps its original value
unchanged; validation only coerces the required fields in place. -/
theorem C7_extra_fields_kept (p v : Obj) (h : validate_payload p = some v)
    (k : String) :
    (hasKey v k = true ↔ (hasKey p k = true ∨ k = "meta")) ∧
    (k ∉ requiredFields → k ≠ "meta" → lookupKey v k = lookupKey p k) := by
  obtain ⟨fa, fb, ba, sq, hr, hfa, hfb, hba, hsq, hv⟩ := validate_payload_some p v h
  constructor
  · simp only [requiredFields, List.all_cons, List.all_nil, Bool.and_eq_true,
      Bool.and_true] at hr
    obtain ⟨h1, h2, h3, h4, h5, h6⟩ := hr
    rw [hv]
    simp only [hasKey_setDefault, hasKey_setKey, Bool.or_eq_true, decide_eq_true_eq]
    constructor
    · rintro (((((((hpk | e) | e) | e) | e) | e) | e) | e)
      · exact Or.inl hpk
      · exact Or.inl (e ▸ h1)
      · exact Or.inl (e ▸ h2)
      · exact Or.inl (e ▸ h3)
      · exact Or.inl (e ▸ h4)
      · exact Or.inl (e ▸ h5)
      · exact Or.inl (e ▸ h6)
      · exact Or.inr e
    · rintro (hpk | e)
      · exact Or.inl (Or.inl (Or.inl (Or.inl (Or.inl (Or.inl (Or.inl hpk))))))
      · exact Or.inr e
  · intro hnr hnm
    simp only [requiredFields, List.mem_cons, List.not_mem_nil, or_false] at hnr
    push_neg at hnr
    obtain ⟨h1, h2, h3, h4, h5, h6⟩ := hnr
    rw [hv, lookupKey_setDefault_ne _ _ _ _ hnm,
      lookupKey_setKey_ne _ _ _ _ h6, lookupKey_setKey_ne _ _ _ _ h5,
      lookupKey_setKey_ne _ _ _ _ h4, lookupKey_setKey_ne _ _ _ _ h3,
      lookupKey_setKey_ne _ _ _ _ h2, lookupKey_setKey_ne _ _ _ _ h1]

/-- A valid payload carrying a field outside the schema. -/
def extraFieldPayload : Obj :=
  [("device_id", .jstr "7"), ("ts", .jstr "t0"), ("field_a", .jnum 1),
   ("field_b", .jnum 2), ("battery", .jint 50), ("seq", .jint 3),
   ("not_in_schema", .jstr "kept")]

theorem C7_counterexample :
    hasKey ((validate_payload extraFieldPayload).getD []) "not_in_schema" = true ∧
    (persistedDocs (ingest [] (some ("u", "u@example.com")) true true
        (some extraFieldPayload))).all (fun d => hasKey d "not_in_schema") = true ∧
    (persistedDocs (ingest [] (some ("u", "u@example.com")) true true
        (some extraFieldPayload))).length = 1 :=
  ⟨rfl, rfl, rfl⟩

theorem C7_witness :
    (hasKey ((validate_payload extraFieldPayload).getD []) "not_in_schema" = true ↔
      (hasKey extraFieldPayload "not_in_schema" = true ∨
        ("not_in_schema" : String) = "meta")) ∧
    lookupKey ((validate_payload extraFieldPayload).getD []) "not_in_schema" =
      lookupKey extraFieldPayload "not_in_schema" :=
  ⟨(C7_extra_fields_kept extraFieldPayload _ rfl "not_in_schema").1,
   (C7_extra_fields_kept extraFieldPayload _ rfl "not_in_schema").2
     (by decide) (by decide)⟩

/-- C8 (amended): every validated (hence persisted) event's `battery` is
an integer — the `int` coercion is enforced — but no 0–100 range check
exists; the stored integer is exactly the coerced input value. -/
theorem C8_battery_is_integer (p v : Obj) (h : validate_payload p = some v) :
    ∃ n : Int, lookupKey v "battery" = some (.jint n) ∧
      pyInt (getKey p "battery") = some n := by
  obtain ⟨fa, fb, ba, sq, hr, hfa, hfb, hba, hsq, hv⟩ := validate_payload_some p v h
  refine ⟨ba, ?_, hba⟩
  rw [hv]
  rw [lookupKey_setDefault_ne _ _ _ _ (by decide)]
  rw [lookupKey_setKey_ne _ _ _ _ (by decide)]
  exact lookupKey_setKey_self _ _ _

/-- A valid payload whose battery is far outside 0–100. -/
def battery150Payload : Obj :=
  [("device_id", .jstr "7"), ("ts", .jstr "t0"), ("field_a", .jnum 1),
   ("field_b", .jnum 2), ("battery", .jint 150), ("seq", .jint 3)]

theorem C8_counterexample :
    (validate_payload battery150Payload).isSome = true ∧
    lookupKey ((validate_payload battery150Payload).getD []) "battery" =
      some (.jint 150) ∧
    (persistedDocs (ingest [] (some ("u", "u@example.com")) true true
        (some battery150Payload))).length = 1 :=
  ⟨rfl, rfl, rfl⟩

theorem C8_witness :
    ∃ n : Int,
      lookupKey ((validate_payload battery150Payload).getD []) "battery" =
        some (.jint n) ∧
      pyInt (getKey battery150Payload "battery") = some n :=
  C8_battery_is_integer battery150Payload _ rfl

/-- C9: validation is idempotent on its success set — re-validating an
already-validated event succeeds and returns it unchanged, with the same
typed values. -/
theorem C9_validate_idempotent (p v : Obj) (h : validate_payload p = some v) :
    validate_payload v = some v := by
  obtain ⟨fa, fb, ba, sq, hr, hfa, hfb, hba, hsq, hv⟩ := validate_payload_some p v h
  have ld : lookupKey v "device_id" = some (.jstr (pyStr (getKey p "device_id"))) := by
    rw [hv]
    rw [lookupKey_setDefault_ne _ _ _ _ (by decide)]
    rw [lookupKey_setKey_ne _ _ _ _ (by decide)]
    rw [lookupKey_setKey_ne _ _ _ _ (by decide)]
    rw [lookupKey_setKey_ne _ _ _ _ (by decide)]
    rw [lookupKey_setKey_ne _ _ _ _ (by decide)]
    rw [lookupKey_setKey_ne _ _ _ _ (by decide)]
    exact lookupKey_setKey_self _ _ _
  have lts : lookupKey v "ts" = some (.jstr (pyStr (getKey p "ts"))) := by
    rw [hv]
    rw [lookupKey_setDefault_ne _ _ _ _ (by decide)]
    rw [lookupKey_setKey_ne _ _ _ _ (by decide)]
    rw [lookupKey_setKey_ne _ _ _ _ (by decide)]
    rw [lookupKey_setKey_ne _ _ _ _ (by decide)]
    rw [lookupKey_setKey_ne _ _ _ _ (by decide)]
    exact lookupKey_setKey_self _ _ _
  have lfa : lookupKey v "field_a" = some (.jnum fa) := by
    rw [hv]
    rw [lookupKey_setDefault_ne _ _ _ _ (by decide)]
    rw [lookupKey_setKey_ne _ _ _ _ (by decide)]
    rw [lookupKey_setKey_ne _ _ _ _ (by decide)]
    rw [lookupKey_setKey_ne _ _ _ _ (by decide)]
    exact lookupKey_setKey_self _ _ _
  have lfb : lookupKey v "field_b" = some (.jnum fb) := by
    rw [hv]
    rw [lookupKey_setDefault_ne _ _ _ _ (by decide)]
    rw [lookupKey_setKey_ne _ _ _ _ (by decide)]
    rw [lookupKey_setKey_ne _ _ _ _ (by decide)]
    exact lookupKey_setKey_self _ _ _
  have lba : lookupKey v "battery" = some (.jint ba) := by
    rw [hv]
    rw [lookupKey_setDefault_ne _ _ _ _ (by decide)]
    rw [lookupKey_setKey_ne _ _ _ _ (by decide)]
    exact lookupKey_setKey_self _ _ _
  have lsq : lookupKey v "seq" = some (.jint sq) := by
    rw [hv]
    rw [lookupKey_setDefault_ne _ _ _ _ (by decide)]
    exact lookupKey_setKey_self _ _ _
  have hm : hasKey v "meta" = true := by
    rw [hv]
    simp [hasKey_setDefault]
  have hall : requiredFields.all (fun k => hasKey v k) = true := by
    simp only [requiredFields, List.all_cons, List.all_nil, Bool.and_eq_true,
      Bool.and_true]
    refine ⟨?_, ?_, ?_, ?_, ?_, ?_⟩ <;>
      simp [hasKey, ld, lts, lfa, lfb, lba, lsq]
  have hps : ∀ s : String, pyStr (.jstr s) = s := fun _ => rfl
  have gd : getKey v "device_id" = .jstr (pyStr (getKey p "device_id")) := by
    simp only [getKey]
    rw [ld]
    rfl
  have gts : getKey v "ts" = .jstr (pyStr (getKey p "ts")) := by
    simp only [getKey]
    rw [lts]
    rfl
  have gfa : pyFloat (getKey v "field_a") = some fa := by
    simp only [getKey]
    rw [lfa]
    rfl
  have gfb : pyFloat (getKey v "field_b") = some fb := by
    simp only [getKey]
    rw [lfb]
    rfl
  have gba : pyInt (getKey v "battery") = some ba := by
    simp only [getKey]
    rw [lba]
    rfl
  have gsq : pyInt (getKey v "seq") = some sq := by
    simp only [getKey]
    rw [lsq]
    rfl
  rw [validate_payload, if_pos hall, gfa, gfb, gba, gsq]
  show some (setDefault (setKey (setKey (setKey (setKey (setKey (setKey v
      "device_id" (.jstr (pyStr (getKey v "device_id"))))
      "ts" (.jstr (pyStr (getKey v "ts"))))
      "field_a" (.jnum fa)) "field_b" (.jnum fb)) "battery" (.jint ba))
      "seq" (.jint sq)) "meta" (.jobj [])) = some v
  rw [gd, gts, hps, hps]
  rw [setKey_lookup_eq v "device_id" _ ld]
  rw [setKey_lookup_eq v "ts" _ lts]
  rw [setKey_lookup_eq v "field_a" _ lfa]
  rw [setKey_lookup_eq v "field_b" _ lfb]
  rw [setKey_lookup_eq v "battery" _ lba]
  rw [setKey_lookup_eq v "seq" _ lsq]
  rw [setDefault_of_hasKey v "meta" _ hm]

theorem C9_witness : validate_payload ((validate_payload goodPayload).getD []) =
    some ((validate_payload goodPayload).getD []) :=
  C9_validate_idempotent goodPayload _ rfl

/-! ## Rule-engine step lemmas -/

theorem isViolation_iff (p : Obj) :
    isViolation p = true ↔
      deviceOf p = rule_instant_device ∧
        ∃ q, fieldA? p = some q ∧ rule_instant_threshold < q := by
  unfold isViolation
  cases hf : fieldA? p <;> simp [hf]

theorem handle_message_some (dbOk : Bool) (p : Obj) (s : RState) (q : ℚ)
    (hq : fieldA? p = some q) :
    handle_message dbOk (some p) s =
      if deviceOf p = rule_instant_device ∧ rule_instant_threshold < q then
        if dbOk then
          persistentStep dbOk p (deviceOf p)
            [⟨deviceOf p, "instant_42_a_gt_5", "instant", p, 1, 1⟩]
            (setState s (deviceOf p) (getState s (deviceOf p) + 1))
        else Except.error ()
      else
        persistentStep dbOk p (deviceOf p) [] (setState s (deviceOf p) 0) := by
  simp only [handle_message]
  rw [hq]

/-- A violating message when the incremented counter stays below the
streak length: one instant alert, counter incremented. -/
theorem handle_message_viol_small (p : Obj) (s : RState)
    (hviol : isViolation p = true)
    (hc : getState s (deviceOf p) + 1 < rule_persistent_count) :
    handle_message true (some p) s =
      Except.ok (setState s (deviceOf p) (getState s (deviceOf p) + 1),
        [⟨deviceOf p, "instant_42_a_gt_5", "instant", p, 1, 1⟩]) := by
  obtain ⟨hd, q, hq, hlt⟩ := (isViolation_iff p).mp hviol
  rw [handle_message_some true p s q hq, if_pos ⟨hd, hlt⟩, if_pos rfl]
  unfold persistentStep
  rw [getState_setState_self]
  rw [if_neg (by omega)]

/-- A violating message when the incremented counter reaches the streak
length: one instant and one persistent alert, counter reset to 0. -/
theorem handle_message_viol_fire (p : Obj) (s : RState)
    (hviol : isViolation p = true)
    (hc : rule_persistent_count ≤ getState s (deviceOf p) + 1) :
    handle_message true (some p) s =
      Except.ok (setState s (deviceOf p) 0,
        [⟨deviceOf p, "instant_42_a_gt_5", "instant", p, 1, 1⟩,
         ⟨deviceOf p, "persistent_42_a_gt_5", "persistent", p,
           getState s (deviceOf p) + 1, 2⟩]) := by
  obtain ⟨hd, q, hq, hlt⟩ := (isViolation_iff p).mp hviol
  rw [handle_message_some true p s q hq, if_pos ⟨hd, hlt⟩, if_pos rfl]
  unfold persistentStep
  rw [getState_setState_self, if_pos hc, if_pos rfl, setState_setState]
  rfl

/-- A decodable but non-violating message: no alert, counter reset. -/
theorem handle_message_nonviol (dbOk : Bool) (p : Obj) (s : RState) (q : ℚ)
    (hq : fieldA? p = some q)
    (hnv : ¬(deviceOf p = rule_instant_device ∧ rule_instant_threshold < q)) :
    handle_message dbOk (some p) s =
      Except.ok (setState s (deviceOf p) 0, []) := by
  rw [handle_message_some dbOk p s q hq, if_neg hnv]
  unfold persistentStep
  rw [getState_setState_self]
  rw [if_neg (by simp [rule_persistent_count])]

/-- A violating message whose instant alert insert raises: the exception
escapes `handle_message` before the state update. -/
theorem handle_message_viol_dbfail (p : Obj) (s : RState)
    (hviol : isViolation p = true) :
    handle_message false (some p) s = Except.error () := by
  obtain ⟨hd, q, hq, hlt⟩ := (isViolation_iff p).mp hviol
  rw [handle_message_some false p s q hq, if_pos ⟨hd, hlt⟩]
  simp

theorem handle_message_decode_fail (dbOk : Bool) (body : Option Obj) (s : RState)
    (h : decodeFails body = true) : handle_message dbOk body s = Except.error () := by
  cases body with
  | none => rfl
  | some p =>
      simp only [handle_message]
      have hf : fieldA? p = none := by
        simpa [decodeFails, Option.isNone_iff_eq_none] using h
      rw [hf]

theorem callback_ok (dbOk : Bool) (body : Option Obj) (s s' : RState)
    (alerts : List Alert) (errors : Nat)
    (h : handle_message dbOk body s = Except.ok (s', alerts)) :
    callback dbOk body s errors = ⟨s', alerts, errors, true⟩ := by
  unfold callback
  rw [h]

theorem callback_error (dbOk : Bool) (body : Option Obj) (s : RState)
    (errors : Nat) (h : handle_message dbOk body s = Except.error ()) :
    callback dbOk body s errors = ⟨s, [], errors + 1, true⟩ := by
  unfold callback
  rw [h]

/-! ## Rule-engine claims -/

/-- C4: on every decodable event, if the device is the configured one and
`field_a` exceeds the threshold, exactly one `instant` alert with
`count = 1`, `severity = 1` is written, whatever the persistent counter's
state; otherwise no instant alert is written. -/
theorem C4_instant_rule (p : Obj) (s : RState) (q : ℚ)
    (hq : fieldA? p = some q) :
    ∃ s' alerts, handle_message true (some p) s = Except.ok (s', alerts) ∧
      ((deviceOf p = rule_instant_device ∧ rule_instant_threshold < q) →
        instantAlerts alerts =
          [⟨deviceOf p, "instant_42_a_gt_5", "instant", p, 1, 1⟩]) ∧
      (¬(deviceOf p = rule_instant_device ∧ rule_instant_threshold < q) →
        instantAlerts alerts = []) := by
  by_cases hv : deviceOf p = rule_instant_device ∧ rule_instant_threshold < q
  · have hviol : isViolation p = true := (isViolation_iff p).mpr ⟨hv.1, q, hq, hv.2⟩
    by_cases hc : getState s (deviceOf p) + 1 < rule_persistent_count
    · exact ⟨_, _, handle_message_viol_small p s hviol hc,
        fun _ => rfl, fun hn => absurd hv hn⟩
    · exact ⟨_, _, handle_message_viol_fire p s hviol (by omega),
        fun _ => rfl, fun hn => absurd hv hn⟩
  · exact ⟨_, _, handle_message_nonviol true p s q hq hv,
      fun h => absurd h hv, fun _ => rfl⟩

/-- An event for device 42 with `field_a = 6`, violating the threshold. -/
def violBody : Obj := [("device_id", .jstr "42"), ("field_a", .jnum 6)]

theorem C4_witness :
    ∃ s' alerts,
      handle_message true (some violBody) [("42", 7)] = Except.ok (s', alerts) ∧
      ((deviceOf violBody = rule_instant_device ∧ rule_instant_threshold < 6) →
        instantAlerts alerts =
          [⟨deviceOf violBody, "instant_42_a_gt_5", "instant", violBody, 1, 1⟩]) ∧
      (¬(deviceOf violBody = rule_instant_device ∧ rule_instant_threshold < 6) →
        instantAlerts alerts = []) :=
  C4_instant_rule violBody [("42", 7)] 6 rfl

/-- C5 counterexample: the claim says the counter update is applied even
when the instant alert write fails; in the code a failing
`insert_alert` raises out of `handle_message` before the state update,
so after a violating event with a failing insert the counter is NOT
incremented (it stays absent, i.e. 0), the error is counted, and the
message is acknowledged. -/
theorem C5_counterexample :
    isViolation violBody = true ∧
    handle_message false (some violBody) [] = Except.error () ∧
    callback false (some violBody) [] 0 = ⟨[], [], 1, true⟩ :=
  ⟨rfl, rfl, rfl⟩

/-- C5 (amended): on every decodable event whose alert writes succeed,
the persistent counter is updated unconditionally — incremented on the
instant predicate (then reset by the persistent rule when it reaches the
streak length) and reset to 0 otherwise, independently of the counter's
previous value; but if the instant alert write raises, the evaluation
aborts and the counter is left unchanged. -/
theorem C5_state_update (dbOk : Bool) (p : Obj) (s : RState) (errors : Nat)
    (q : ℚ) (hq : fieldA? p = some q) :
    (dbOk = true →
      ∃ s' alerts, callback true (some p) s errors = ⟨s', alerts, errors, true⟩ ∧
        getState s' (deviceOf p) =
          (if deviceOf p = rule_instant_device ∧ rule_instant_threshold < q then
            (if rule_persistent_count ≤ getState s (deviceOf p) + 1 then 0
             else getState s (deviceOf p) + 1)
          else 0)) ∧
    (dbOk = false → isViolation p = true →
      callback false (some p) s errors = ⟨s, [], errors + 1, true⟩) := by
  constructor
  · intro _
    by_cases hv : deviceOf p = rule_instant_device ∧ rule_instant_threshold < q
    · have hviol : isViolation p = true := (isViolation_iff p).mpr ⟨hv.1, q, hq, hv.2⟩
      by_cases hc : rule_persistent_count ≤ getState s (deviceOf p) + 1
      · refine ⟨_, _, callback_ok true (some p) s _ _ errors
          (handle_message_viol_fire p s hviol hc), ?_⟩
        rw [getState_setState_self, if_pos hv, if_pos hc]
      · refine ⟨_, _, callback_ok true (some p) s _ _ errors
          (handle_message_viol_small p s hviol (by omega)), ?_⟩
        rw [getState_setState_self, if_pos hv, if_neg hc]
    · refine ⟨_, _, callback_ok true (some p) s _ _ errors
        (handle_message_nonviol true p s q hq hv), ?_⟩
      rw [getState_setState_self, if_neg hv]
  · intro _ hviol
    exact callback_error false (some p) s errors
      (handle_message_viol_dbfail p s hviol)

theorem C5_witness :
    (∃ s' alerts, callback true (some violBody) [] 0 = ⟨s', alerts, 0, true⟩ ∧
      getState s' (deviceOf violBody) =
        (if deviceOf violBody = rule_instant_device ∧ rule_instant_threshold < 6 then
          (if rule_persistent_count ≤ getState [] (deviceOf violBody) + 1 then 0
           else getState [] (deviceOf violBody) + 1)
        else 0)) :=
  (C5_state_update true violBody [] 0 6 rfl).1 rfl

/-- C6: a bus message that cannot be decoded into a TelemetryEvent-shaped
record makes the engine count one processing error, acknowledge the
message, write no alert, and leave the whole per-device state dict
unchanged. -/
theorem C6_malformed_message (dbOk : Bool) (body : Option Obj) (s : RState)
    (errors : Nat) (h : decodeFails body = true) :
    callback dbOk body s errors = ⟨s, [], errors + 1, true⟩ :=
  callback_error dbOk body s errors (handle_message_decode_fail dbOk body s h)

theorem C6_witness :
    decodeFails none = true ∧
    callback true none [("42", 3)] 5 = ⟨[("42", 3)], [], 6, true⟩ :=
  ⟨rfl, C6_malformed_message true none [("42", 3)] 5 rfl⟩

/-- C10: a JSON-object message with no `field_a` key is processed
normally with `field_a` read as 0: the instant predicate is false, the
device's counter is reset to 0, no alert is written and no error is
counted. -/
theorem C10_missing_field_a (dbOk : Bool) (p : Obj) (s : RState) (errors : Nat)
    (h : lookupKey p "field_a" = none) :
    fieldA? p = some 0 ∧
    callback dbOk (some p) s errors =
      ⟨setState s (deviceOf p) 0, [], errors, true⟩ := by
  have hq : fieldA? p = some 0 := by
    unfold fieldA?
    rw [h]
    rfl
  refine ⟨hq, ?_⟩
  refine callback_ok dbOk (some p) s _ _ errors ?_
  refine handle_message_nonviol dbOk p s 0 hq ?_
  rintro ⟨-, h5⟩
  exact absurd h5 (by decide)

theorem C10_witness :
    fieldA? [("device_id", JVal.jstr "99")] = some 0 ∧
    callback true (some [("device_id", JVal.jstr "99")]) [] 0 =
      ⟨[("99", 0)], [], 0, true⟩ :=
  C10_missing_field_a true [("device_id", JVal.jstr "99")] [] 0 rfl

/-! ## The persistent-streak property (C3) -/

theorem runMessages_nil (s : RState) : runMessages [] s = (s, []) := rfl

theorem runMessages_cons (b : Obj) (rest : List Obj) (s : RState) :
    runMessages (b :: rest) s =
      ((runMessages rest (callback true (some b) s 0).state).1,
       (callback true (some b) s 0).alerts ++
         (runMessages rest (callback true (some b) s 0).state).2) := rfl

theorem runMessages_cons_ok (b : Obj) (rest : List Obj) (s s1 : RState)
    (alerts : List Alert)
    (h : handle_message true (some b) s = Except.ok (s1, alerts)) :
    runMessages (b :: rest) s =
      ((runMessages rest s1).1, alerts ++ (runMessages rest s1).2) := by
  rw [runMessages_cons, callback_ok true (some b) s s1 alerts 0 h]

theorem runMessages_append (xs ys : List Obj) : ∀ s : RState,
    runMessages (xs ++ ys) s =
      ((runMessages ys (runMessages xs s).1).1,
       (runMessages xs s).2 ++ (runMessages ys (runMessages xs s).1).2) := by
  induction xs with
  | nil => intro s; simp [runMessages_nil]
  | cons b rest ih =>
      intro s
      rw [List.cons_append, runMessages_cons, runMessages_cons, ih]
      simp [List.append_assoc]

theorem persistentAlerts_append (xs ys : List Alert) :
    persistentAlerts (xs ++ ys) = persistentAlerts xs ++ persistentAlerts ys := by
  simp [persistentAlerts, List.filter_append]

theorem persistentAlerts_instant (d : String) (p : Obj) :
    persistentAlerts [⟨d, "instant_42_a_gt_5", "instant", p, 1, 1⟩] = [] := rfl

theorem persistentAlerts_fire (d : String) (p : Obj) (n : Nat) :
    persistentAlerts [⟨d, "instant_42_a_gt_5", "instant", p, 1, 1⟩,
        ⟨d, "persistent_42_a_gt_5", "persistent", p, n, 2⟩] =
      [⟨d, "persistent_42_a_gt_5", "persistent", p, n, 2⟩] := rfl

/-- Running any number of violating events for the configured device:
the number of persistent alerts and the final counter are determined by
the starting counter and the number of events, and every persistent
alert fires with exactly the streak length as its count. -/
theorem runMessages_all_viol (bodies : List Obj) :
    ∀ s : RState, (∀ b ∈ bodies, isViolation b = true) →
      getState s rule_instant_device < rule_persistent_count →
      (persistentAlerts (runMessages bodies s).2).length =
          (getState s rule_instant_device + bodies.length) /
            rule_persistent_count ∧
      getState (runMessages bodies s).1 rule_instant_device =
          (getState s rule_instant_device + bodies.length) %
            rule_persistent_count ∧
      ∀ a ∈ persistentAlerts (runMessages bodies s).2,
        a.rule_type = "persistent" ∧ a.count = rule_persistent_count ∧
          a.severity = 2 := by
  induction bodies with
  | nil =>
      intro s _ hlt
      simp only [rule_persistent_count] at hlt
      refine ⟨?_, ?_, ?_⟩
      · show (0 : Nat) = (getState s rule_instant_device + List.length []) /
          rule_persistent_count
        show (0 : Nat) = (getState s rule_instant_device + 0) / 10
        omega
      · show getState s rule_instant_device =
          (getState s rule_instant_device + List.length []) % rule_persistent_count
        show getState s rule_instant_device = (getState s rule_instant_device + 0) % 10
        omega
      · intro a ha
        exact absurd ha (List.not_mem_nil a)
  | cons b rest ih =>
      intro s hall hlt
      have hb : isViolation b = true := hall b (List.mem_cons_self b rest)
      have hrest : ∀ x ∈ rest, isViolation x = true :=
        fun x hx => hall x (List.mem_cons_of_mem b hx)
      have hd : deviceOf b = rule_instant_device := ((isViolation_iff b).mp hb).1
      by_cases hc : getState s (deviceOf b) + 1 < rule_persistent_count
      · rw [runMessages_cons_ok b rest s _ _
          (handle_message_viol_small b s hb hc)]
        have hs1 : getState (setState s (deviceOf b)
            (getState s (deviceOf b) + 1)) rule_instant_device =
            getState s rule_instant_device + 1 := by
          rw [hd, getState_setState_self]
        rw [hd] at hc
        obtain ⟨ih1, ih2, ih3⟩ :=
          ih (setState s (deviceOf b) (getState s (deviceOf b) + 1)) hrest
            (by rw [hs1]; exact hc)
        refine ⟨?_, ?_, ?_⟩
        · simp only [persistentAlerts_append, persistentAlerts_instant,
            List.length_append, List.length_nil, List.length_cons,
            List.nil_append]
          rw [ih1, hs1]
          simp only [rule_persistent_count] at hc ⊢
          omega
        · show getState (runMessages rest (setState s (deviceOf b)
            (getState s (deviceOf b) + 1))).1 rule_instant_device = _
          rw [ih2, hs1]
          simp only [List.length_cons, rule_persistent_count] at hc ⊢
          omega
        · intro a ha
          rw [persistentAlerts_append, persistentAlerts_instant,
            List.nil_append] at ha
          exact ih3 a ha
      · have hfire : rule_persistent_count ≤ getState s (deviceOf b) + 1 := by
          omega
        rw [runMessages_cons_ok b rest s _ _
          (handle_message_viol_fire b s hb hfire)]
        have hcount : getState s (deviceOf b) + 1 = rule_persistent_count := by
          rw [hd] at hfire ⊢
          omega
        have hs1 : getState (setState s (deviceOf b) 0) rule_instant_device = 0 := by
          rw [hd, getState_setState_self]
        obtain ⟨ih1, ih2, ih3⟩ := ih (setState s (deviceOf b) 0) hrest
          (by rw [hs1]; simp [rule_persistent_count])
        refine ⟨?_, ?_, ?_⟩
        · simp only [persistentAlerts_append, persistentAlerts_fire,
            List.length_append, List.length_cons, List.length_nil,
            List.singleton_append]
          rw [ih1, hs1]
          rw [hd] at hcount
          simp only [rule_persistent_count] at hcount ⊢
          omega
        · show getState (runMessages rest (setState s (deviceOf b) 0)).1
            rule_instant_device = _
          rw [ih2, hs1]
          rw [hd] at hcount
          simp only [List.length_cons, rule_persistent_count] at hcount ⊢
          omega
        · intro a ha
          rw [persistentAlerts_append, persistentAlerts_fire] at ha
          rcases List.mem_append.mp ha with ha1 | ha1
          · rcases List.mem_singleton.mp ha1 with rfl
            exact ⟨rfl, hcount, rfl⟩
          · exact ih3 a ha1

/-- C3: starting with the device's counter at 0, a run of exactly N
(the configured streak length) violating events produces exactly one
`persistent` alert, every persistent alert in the run has
`count = N` and `severity = 2`, and the counter is 0 afterwards; and a
run of fewer than N violating events followed by one evaluated event for
the same device that fails the predicate produces no persistent alert at
all and leaves the counter at 0. -/
theorem C3_persistent_streak (bodies : List Obj) (s : RState)
    (h0 : getState s rule_instant_device = 0) :
    (bodies.length = rule_persistent_count →
      (∀ b ∈ bodies, isViolation b = true) →
      (persistentAlerts (runMessages bodies s).2).length = 1 ∧
      (∀ a ∈ persistentAlerts (runMessages bodies s).2,
        a.rule_type = "persistent" ∧ a.count = rule_persistent_count ∧
          a.severity = 2) ∧
      getState (runMessages bodies s).1 rule_instant_device = 0) ∧
    (∀ (bs : List Obj) (b0 : Obj) (q : ℚ),
      bodies = bs ++ [b0] →
      bs.length < rule_persistent_count →
      (∀ b ∈ bs, isViolation b = true) →
      deviceOf b0 = rule_instant_device →
      fieldA? b0 = some q → ¬rule_instant_threshold < q →
      persistentAlerts (runMessages bodies s).2 = [] ∧
      getState (runMessages bodies s).1 rule_instant_device = 0) := by
  have hlt0 : getState s rule_instant_device < rule_persistent_count := by
    rw [h0]
    simp [rule_persistent_count]
  constructor
  · intro hlen hall
    obtain ⟨h1, h2, h3⟩ := runMessages_all_viol bodies s hall hlt0
    refine ⟨?_, h3, ?_⟩
    · rw [h1, h0, hlen]
      simp [rule_persistent_count]
    · rw [h2, h0, hlen]
      simp [rule_persistent_count]
  · intro bs b0 q hsplit hlen hvall hd0 hq0 hnlt
    subst hsplit
    rw [runMessages_append]
    obtain ⟨ih1, ih2, ih3⟩ := runMessages_all_viol bs s hvall hlt0
    have hpa : persistentAlerts (runMessages bs s).2 = [] := by
      rw [← List.length_eq_zero]
      rw [ih1, h0]
      simp only [rule_persistent_count] at hlen ⊢
      omega
    have hstate : getState (runMessages bs s).1 rule_instant_device = bs.length := by
      rw [ih2, h0]
      simp only [rule_persistent_count] at hlen ⊢
      omega
    have hnv : ¬(deviceOf b0 = rule_instant_device ∧ rule_instant_threshold < q) :=
      fun hx => hnlt hx.2
    have hrun1 : runMessages [b0] (runMessages bs s).1 =
        (setState (runMessages bs s).1 (deviceOf b0) 0, []) := by
      rw [runMessages_cons_ok b0 [] (runMessages bs s).1 _ _
        (handle_message_nonviol true b0 (runMessages bs s).1 q hq0 hnv)]
      rw [runMessages_nil]
      rfl
    rw [hrun1]
    constructor
    · show persistentAlerts ((runMessages bs s).2 ++ []) = []
      rw [List.append_nil, hpa]
    · show getState (setState (runMessages bs s).1 (deviceOf b0) 0)
        rule_instant_device = 0
      rw [hd0, getState_setState_self]

/-- A decodable event for device 42 that does not violate the threshold. -/
def resetBody : Obj := [("device_id", .jstr "42"), ("field_a", .jnum 1)]

theorem C3_witness :
    ((persistentAlerts (runMessages (List.replicate 10 violBody) []).2).length = 1 ∧
      (∀ a ∈ persistentAlerts (runMessages (List.replicate 10 violBody) []).2,
        a.rule_type = "persistent" ∧ a.count = rule_persistent_count ∧
          a.severity = 2) ∧
      getState (runMessages (List.replicate 10 violBody) []).1
        rule_instant_device = 0) ∧
    (persistentAlerts
        (runMessages (List.replicate 5 violBody ++ [resetBody]) []).2 = [] ∧
      getState (runMessages (List.replicate 5 violBody ++ [resetBody]) []).1
        rule_instant_device = 0) :=
  ⟨(C3_persistent_streak (List.replicate 10 violBody) [] rfl).1 rfl
      (fun b hb => by rw [List.eq_of_mem_replicate hb]; rfl),
   (C3_persistent_streak (List.replicate 5 violBody ++ [resetBody]) [] rfl).2
      (List.replicate 5 violBody) resetBody 1 rfl (by decide)
      (fun b hb => by rw [List.eq_of_mem_replicate hb]; rfl) rfl rfl (by decide)⟩

end MOPS
